import Mathlib

/-!
# AgriSmart analytics core: shallow embedding and verification

This file embeds the analytic core of the AgriSmart backend
(`src/app/api/district-stats/route.ts` — which contains both the
district-statistics handler and the market-prices trend handler —,
`src/app/api/profile/route.ts`, and the schema functions of
`src/scripts/V2_create_fresh_database.sql`) as executable Lean
definitions, and proves or refutes the specification's claims about it.

Numeric prices and measures are modelled as rationals (`ℚ`); JavaScript
`Math.round` is Mathlib's `round` (round half toward +∞), and
`Number.parseFloat(x.toFixed(1))` is rounding to one decimal place.
JavaScript `a || b` on a nullable number is falsy-coalescing: it takes
`b` both when `a` is null/undefined and when `a` is `0`.
-/

/-- JavaScript `x || y` for a nullable numeric `x`: `y` when `x` is
null/undefined *or* zero (both are falsy), else the value of `x`. -/
def jsOr (x : Option ℚ) (y : ℚ) : ℚ :=
  match x with
  | some v => if v = 0 then y else v
  | none => y

/-- A row of the `market_prices` table as consumed by the market-prices
handler: `crop_name`, a nullable alternate identifier `commodity`, and
three nullable price fields. -/
structure PriceRecord where
  crop_name : String
  commodity : Option String
  modal_price : Option ℚ
  max_price : Option ℚ
  min_price : Option ℚ
deriving DecidableEq, Repr

/-- `price.modal_price || price.max_price || price.min_price || 0`:
the coalesced price used for both `currentPrice` and `prevPrice`. -/
def coalescePrice (r : PriceRecord) : ℚ :=
  jsOr r.modal_price (jsOr r.max_price (jsOr r.min_price 0))

/-- The series-key match of the `find` callback:
`p.crop_name === price.crop_name || p.commodity === price.commodity`.
`Option.none = Option.none` models `undefined === undefined` /
`null === null`, which is `true` in JavaScript. -/
def sameSeries (p price : PriceRecord) : Bool :=
  p.crop_name == price.crop_name || p.commodity == price.commodity

/-- `array.slice(index + 1).find((p) => ...)`: the nearest older (later
in the date-descending array) record matching the same series key. -/
def findPrevious (price : PriceRecord) (tail : List PriceRecord) : Option PriceRecord :=
  tail.find? (fun p => sameSeries p price)

/-- `((currentPrice - prevPrice) / prevPrice) * 100`, before rounding. -/
def rawChangePercent (cur prev : ℚ) : ℚ :=
  (cur - prev) / prev * 100

/-- `Number.parseFloat(changePercent.toFixed(1))`: round to one decimal
place. -/
def roundToTenth (x : ℚ) : ℚ :=
  (round (x * 10) : ℤ) / 10

/-- The trend annotation attached to each processed price record. -/
structure TrendResult where
  trend : String
  change_percent : ℚ
  change_amount : ℤ
deriving DecidableEq, Repr

/-- The body of the `pricesData?.map((price, index, array) => ...)`
callback for one record `price` with `tail = array.slice(index + 1)`:
find the previous same-series record; when found and its coalesced price
is positive, compute the raw change percent and classify against the
±2 thresholds; report the change percent rounded to one decimal and
`change_amount = Math.round((modal || max || 0) * (changePercent / 100))`
with the *unrounded* change percent. -/
def classify (price : PriceRecord) (tail : List PriceRecord) : TrendResult :=
  let tc : String × ℚ :=
    match findPrevious price tail with
    | none => ("stable", 0)
    | some p =>
        let currentPrice := coalescePrice price
        let prevPrice := coalescePrice p
        if prevPrice > 0 then
          let changePercent := rawChangePercent currentPrice prevPrice
          (if changePercent > 2 then "up"
           else if changePercent < -2 then "down"
           else "stable", changePercent)
        else ("stable", 0)
  { trend := tc.1
    change_percent := roundToTenth tc.2
    change_amount := round (jsOr price.modal_price (jsOr price.max_price 0) * (tc.2 / 100)) }

/-- `pricesData.map((price, index, array) => ...)`: annotate every
record, each against the tail of the original array after its index. -/
def processPrices : List PriceRecord → List (PriceRecord × TrendResult)
  | [] => []
  | price :: rest => (price, classify price rest) :: processPrices rest

/-! ## District statistics handler (`GET` of the district-stats route) -/

/-- A row of the `district_statistics` table
(`src/scripts/run_all_migrations.sql`): `district` and `state` are
`NOT NULL`, every other queried column is nullable. -/
structure StatRecord where
  state : String
  district : String
  taluka : Option String
  season : Option String
  crop : Option String
  area_ha : Option ℚ
  production_mt : Option ℚ
  yield_mt_per_ha : Option ℚ
  rainfall_mm : Option ℚ
  irrigation_coverage_percent : Option ℚ
  recorded_year : Option ℤ
deriving DecidableEq, Repr

/-- `Number(r.field) || 0` on a nullable numeric column: `0` for an
absent value, the value itself otherwise. -/
def numOr0 (x : Option ℚ) : ℚ :=
  match x with
  | some v => v
  | none => 0

/-- `data.reduce((sum, r) => sum + (Number(r.field) || 0), 0)`:
left fold, absent fields contributing `0`. -/
def sumField (f : StatRecord → Option ℚ) (rows : List StatRecord) : ℚ :=
  rows.foldl (fun sum r => sum + numOr0 (f r)) 0

/-- The `aggregates` object built by the handler. -/
structure Aggregates where
  totalArea : ℚ
  totalProduction : ℚ
  avgYield : ℚ
  avgRainfall : ℚ
  avgIrrigationCoverage : ℚ
deriving DecidableEq, Repr

/-- `const aggregates = data ? { ... } : null`: `none` exactly when the
data array itself is null; otherwise sums over all rows and averages
guarded by `data.length > 0`. -/
def computeAggregates (data : Option (List StatRecord)) : Option Aggregates :=
  match data with
  | none => none
  | some rows =>
      some
        { totalArea := sumField (fun r => r.area_ha) rows
          totalProduction := sumField (fun r => r.production_mt) rows
          avgYield :=
            if rows.length > 0 then sumField (fun r => r.yield_mt_per_ha) rows / rows.length else 0
          avgRainfall :=
            if rows.length > 0 then sumField (fun r => r.rainfall_mm) rows / rows.length else 0
          avgIrrigationCoverage :=
            if rows.length > 0 then
              sumField (fun r => r.irrigation_coverage_percent) rows / rows.length
            else 0 }

/-! ### The query filter adapter -/

/-- JavaScript string truthiness of `searchParams.get(k)`: an absent
parameter is `null` and the empty string is falsy, so both skip the
filter. -/
def jsTruthy (s : Option String) : Option String :=
  match s with
  | some v => if v = "" then none else some v
  | none => none

/-- Decimal digit value of a character, if any. -/
def digitVal (c : Char) : Option ℕ :=
  if '0' ≤ c ∧ c ≤ '9' then some (c.toNat - '0'.toNat) else none

/-- Hexadecimal digit value of a character, if any. -/
def hexVal (c : Char) : Option ℕ :=
  if '0' ≤ c ∧ c ≤ '9' then some (c.toNat - '0'.toNat)
  else if 'a' ≤ c ∧ c ≤ 'f' then some (c.toNat - 'a'.toNat + 10)
  else if 'A' ≤ c ∧ c ≤ 'F' then some (c.toNat - 'A'.toNat + 10)
  else none

/-- Longest prefix of digit values under a digit-classification map. -/
def takeDigits (dv : Char → Option ℕ) : List Char → List ℕ
  | [] => []
  | c :: cs =>
      match dv c with
      | some d => d :: takeDigits dv cs
      | none => []

/-- Digit list to a natural number in the given base. -/
def digitsToNat (base : ℕ) (ds : List ℕ) : ℕ :=
  ds.foldl (fun a d => a * base + d) 0

/-- JavaScript whitespace accepted by `parseInt`. -/
def isJsWS (c : Char) : Bool :=
  c == ' ' || c == '\t' || c == '\n' || c == '\r'

/-- `Number.parseInt(s)` with no radix argument: skip leading
whitespace, optional sign, then either a `0x`/`0X` hexadecimal literal
or the longest decimal-digit prefix; `none` models `NaN` (no digits). -/
def jsParseInt (s : String) : Option ℤ :=
  let cs := s.toList.dropWhile isJsWS
  let signed : ℤ × List Char :=
    match cs with
    | '+' :: rest => (1, rest)
    | '-' :: rest => (-1, rest)
    | _ => (1, cs)
  match signed.2 with
  | '0' :: x :: rest =>
      if x = 'x' ∨ x = 'X' then
        let ds := takeDigits hexVal rest
        if ds = [] then none else some (signed.1 * digitsToNat 16 ds)
      else
        some (signed.1 * digitsToNat 10 (takeDigits digitVal ('0' :: x :: rest)))
  | other =>
      let ds := takeDigits digitVal other
      if ds = [] then none else some (signed.1 * digitsToNat 10 ds)

/-- Case-insensitive substring test: `ilike("col", `%pat%`)` on a
non-null text value. -/
def containsCI (s pat : String) : Bool :=
  let hay := s.toList.map Char.toLower
  let nee := pat.toList.map Char.toLower
  (List.range (hay.length + 1)).any (fun i => (hay.drop i).take nee.length == nee)

/-- `ilike` on a nullable text column: a null value never matches. -/
def containsCIOpt (s : Option String) (pat : String) : Bool :=
  match s with
  | some v => containsCI v pat
  | none => false

/-- The query parameters of the district-stats request, as returned by
`searchParams.get` (absent parameter = `none`). -/
structure StatsParams where
  district : Option String
  taluka : Option String
  crop : Option String
  year : Option String
  limit : Option String
deriving Repr

/-- The conjunction of the optional filters applied to the query:
`ilike` partial matches for district/taluka/crop and, when the year
parameter is present and parses, an exact `recorded_year` match. -/
def rowMatches (district taluka crop : Option String) (yearNum : Option ℤ)
    (r : StatRecord) : Bool :=
  (match district with
   | none => true
   | some d => containsCI r.district d) &&
  (match taluka with
   | none => true
   | some t => containsCIOpt r.taluka t) &&
  (match crop with
   | none => true
   | some c => containsCIOpt r.crop c) &&
  (match yearNum with
   | none => true
   | some y => r.recorded_year == some y)

/-- Strictly-before in the `recorded_year` descending order
(descending order puts nulls first). -/
def yearDescLt (a b : Option ℤ) : Bool :=
  match a, b with
  | none, none => false
  | none, some _ => true
  | some _, none => false
  | some x, some y => y < x

/-- The row ordering of the query: `recorded_year` descending, then
`district` ascending. -/
def statLe (a b : StatRecord) : Bool :=
  yearDescLt a.recorded_year b.recorded_year ||
  (a.recorded_year == b.recorded_year && decide (a.district ≤ b.district))

/-- Insert a row into a list sorted by `le`, keeping the order. -/
def insertBy (le : StatRecord → StatRecord → Bool) (x : StatRecord) :
    List StatRecord → List StatRecord
  | [] => [x]
  | y :: ys => if le x y then x :: y :: ys else y :: insertBy le x ys

/-- Insertion sort by `le`: the model of the query's `order by`. -/
def sortBy (le : StatRecord → StatRecord → Bool) : List StatRecord → List StatRecord
  | [] => []
  | x :: xs => insertBy le x (sortBy le xs)

/-- `.limit(n)`: keep the first `n` rows (all rows when the limit
string did not parse). -/
def appliedLimit (n : Option ℤ) (rows : List StatRecord) : List StatRecord :=
  match n with
  | some k => rows.take k.toNat
  | none => rows

/-- The JSON payload of a successful district-stats response. -/
structure StatsResponse where
  stats : List StatRecord
  aggregates : Option Aggregates
  count : ℕ
deriving Repr

/-- The district-stats `GET` handler on a successfully fetched table:
read the filters (empty-string parameters are falsy and skipped; a year
that fails `parseInt` is skipped), filter, order, limit, then attach
the aggregates of the returned rows and their count. -/
def districtStatsHandler (p : StatsParams) (table : List StatRecord) : StatsResponse :=
  let district := jsTruthy p.district
  let taluka := jsTruthy p.taluka
  let crop := jsTruthy p.crop
  let yearNum : Option ℤ := (jsTruthy p.year).bind jsParseInt
  let limitNum : Option ℤ := jsParseInt ((jsTruthy p.limit).getD "100")
  let rows :=
    appliedLimit limitNum
      (sortBy statLe (table.filter (rowMatches district taluka crop yearNum)))
  { stats := rows
    aggregates := computeAggregates (some rows)
    count := rows.length }

/-! ## Soil health scorer (`calculate_soil_health_score`,
`src/scripts/V2_create_fresh_database.sql`) -/

/-- `calculate_soil_health_score(ph, nitrogen, phosphorus, potassium,
organic_matter)`: pH scores 40 in [6.0, 7.5] else 10; the nutrient score
is the `LEAST` of the three per-nutrient `CASE` scores (20 in range,
else 10); organic matter scores 20 if ≥ 2.0, 15 if ≥ 1.0, else 5; the
result is the sum of the three parts. -/
def calculate_soil_health_score (ph nitrogen phosphorus potassium organic_matter : ℚ) : ℚ :=
  let ph_score : ℚ := if 6 ≤ ph ∧ ph ≤ 15 / 2 then 40 else 10
  let nutrient_score : ℚ :=
    min (if 200 ≤ nitrogen ∧ nitrogen ≤ 400 then 20 else 10)
      (min (if 20 ≤ phosphorus ∧ phosphorus ≤ 60 then 20 else 10)
        (if 150 ≤ potassium ∧ potassium ≤ 300 then 20 else 10))
  let organic_score : ℚ := if 2 ≤ organic_matter then 20 else if 1 ≤ organic_matter then 15 else 5
  ph_score + nutrient_score + organic_score

/-! ## Crop cycles (`crop_cycles`,
`src/scripts/V2_create_fresh_database.sql`) -/

/-- A row of `crop_cycles` restricted to the date fields; dates are
modelled as day numbers (`DATE` arithmetic adds whole days). -/
structure CropCycleRow where
  crop_name : String
  planting_date : ℤ
  expected_harvest_date : ℤ
deriving DecidableEq, Repr

/-- `expected_harvest_date DATE GENERATED ALWAYS AS
(planting_date + INTERVAL '120 days') STORED`: an insert computes the
column from `planting_date`; the column is not independently writable. -/
def insertCropCycle (crop : String) (planting : ℤ) : CropCycleRow :=
  { crop_name := crop
    planting_date := planting
    expected_harvest_date := planting + 120 }

/-- An `UPDATE` that changes `planting_date`: the generated column is
re-derived by the database on every write of its source column. -/
def updatePlantingDate (row : CropCycleRow) (newDate : ℤ) : CropCycleRow :=
  { row with
    planting_date := newDate
    expected_harvest_date := newDate + 120 }

/-! ## Profile route (`src/app/api/profile/route.ts`) -/

/-- The JSON payload accepted by the profile `POST` handler. -/
structure ProfilePayload where
  full_name : Option String
  phone : Option String
  email : Option String
  state : Option String
  district : Option String
  land_area : Option ℚ
  land_unit : Option String
  primary_crop : Option String
  experience_years : Option ℚ
  preferred_language : Option String
  irrigation : Option String
deriving Repr

/-- A row of `farmer_profiles` as written by the `POST` handler. -/
structure ProfileRow where
  user_id : String
  full_name : Option String
  phone : Option String
  email : Option String
  state : Option String
  district : Option String
  land_area : Option ℚ
  land_unit : Option String
  primary_crop : Option String
  experience_years : Option ℚ
  preferred_language : Option String
  irrigation : Option String
deriving DecidableEq, Repr

/-- A call issued to the repository (the Supabase client). -/
inductive RepoCall where
  | selectProfile (uid : String)
  | upsertProfile (uid : String)
deriving DecidableEq, Repr

/-- The response of a profile handler. -/
inductive ProfileResp where
  | unauthorized
  | ok (profile : Option ProfileRow)
deriving DecidableEq, Repr

/-- `payload.land_area ? Number(payload.land_area) : null`: JavaScript
truthiness, so an absent value and a zero value both give null. -/
def truthyNum (x : Option ℚ) : Option ℚ :=
  match x with
  | some v => if v = 0 then none else some v
  | none => none

/-- The row built by the `POST` handler's `upsert` from the caller's
identity and the request payload. -/
def buildProfileRow (uid : String) (payload : ProfilePayload) : ProfileRow :=
  { user_id := uid
    full_name := payload.full_name
    phone := payload.phone
    email := payload.email
    state := payload.state
    district := payload.district
    land_area := truthyNum payload.land_area
    land_unit := payload.land_unit
    primary_crop := payload.primary_crop
    experience_years := truthyNum payload.experience_years
    preferred_language := payload.preferred_language
    irrigation := payload.irrigation }

/-- `upsert(..., { onConflict: "user_id" })`: replace the row with the
same `user_id`, or append when none exists. -/
def upsertProfiles (db : List ProfileRow) (row : ProfileRow) : List ProfileRow :=
  if db.any (fun r => r.user_id == row.user_id) then
    db.map (fun r => if r.user_id == row.user_id then row else r)
  else
    db ++ [row]

/-- The profile `GET` handler: check `auth()` first; only with a user id
does it query `farmer_profiles` (`maybeSingle`). Returns the response
and the list of repository calls issued. -/
def profileGET (userId : Option String) (db : List ProfileRow) :
    ProfileResp × List RepoCall :=
  match userId with
  | none => (ProfileResp.unauthorized, [])
  | some uid =>
      (ProfileResp.ok (db.find? (fun r => r.user_id == uid)), [RepoCall.selectProfile uid])

/-- The profile `POST` handler: check `auth()` first; only with a user
id does it parse the payload and upsert. Returns the response, the
database after the request, and the repository calls issued. -/
def profilePOST (userId : Option String) (payload : ProfilePayload) (db : List ProfileRow) :
    ProfileResp × List ProfileRow × List RepoCall :=
  match userId with
  | none => (ProfileResp.unauthorized, db, [])
  | some uid =>
      let row := buildProfileRow uid payload
      (ProfileResp.ok (some row), upsertProfiles db row, [RepoCall.upsertProfile uid])

/-! ## Concrete records used in witnesses and counterexamples -/

/-- A Wheat observation with modal price 2551. -/
def c1rec : PriceRecord := ⟨"Wheat", none, some 2551, none, none⟩

/-- A Wheat observation with modal price 2500. -/
def c1prev : PriceRecord := ⟨"Wheat", none, some 2500, none, none⟩

/-- A Rice observation with a large modal price. -/
def c2rec : PriceRecord := ⟨"Rice", none, some 9999, none, none⟩

/-- A Rice observation with every price field absent. -/
def c2prev : PriceRecord := ⟨"Rice", none, none, none, none⟩

/-- A Rice observation whose only present price field is the minimum. -/
def c3rec : PriceRecord := ⟨"Rice", none, none, none, some 50⟩

/-- A Rice observation with modal price 100. -/
def c3prev : PriceRecord := ⟨"Rice", none, some 100, none, none⟩

/-- Two regional records: yield 10 on the first, absent on the second. -/
def c4pair : List StatRecord :=
  [⟨"Maharashtra", "Pune", none, none, none, none, none, some 10, none, none, none⟩,
   ⟨"Maharashtra", "Nashik", none, none, none, none, none, none, none, none, none⟩]

/-- A district filter that matches no row of `c5table`. -/
def c5params : StatsParams := ⟨some "Nagpur", none, none, none, none⟩

/-- A one-row table whose only district is Pune. -/
def c5table : List StatRecord :=
  [⟨"Maharashtra", "Pune", none, none, some "Wheat", some 4, some 8, some 10, some 500,
    some 60, some 2022⟩]

/-- A Wheat observation with modal price 10 and no commodity field. -/
def c9a : PriceRecord := ⟨"Wheat", none, some 10, none, none⟩

/-- A Rice observation with modal price 20 and no commodity field. -/
def c9b : PriceRecord := ⟨"Rice", none, some 20, none, none⟩

/-- Request parameters with only a district filter. -/
def c10params : StatsParams := ⟨some "Pune", none, none, none, none⟩

/-- A one-row table matching the `c10params` district filter. -/
def c10table : List StatRecord :=
  [⟨"Maharashtra", "Pune", none, none, none, some 1, none, none, none, none, some 2022⟩]

/-! ## Helper lemmas -/

/-- When a previous same-series record with positive coalesced price
exists, `classify` takes the positive branch. -/
theorem classify_pos (price p : PriceRecord) (tail : List PriceRecord)
    (hfind : findPrevious price tail = some p) (hpos : 0 < coalescePrice p) :
    classify price tail =
      { trend :=
          if rawChangePercent (coalescePrice price) (coalescePrice p) > 2 then "up"
          else if rawChangePercent (coalescePrice price) (coalescePrice p) < -2 then "down"
          else "stable"
        change_percent := roundToTenth (rawChangePercent (coalescePrice price) (coalescePrice p))
        change_amount :=
          round (jsOr price.modal_price (jsOr price.max_price 0) *
            (rawChangePercent (coalescePrice price) (coalescePrice p) / 100)) } := by
  unfold classify
  rw [hfind]
  simp only [hpos, if_pos]

/-- A left fold accumulating `numOr0` of a field equals the sum of the
mapped list. -/
theorem sumField_eq_sum_map (f : StatRecord → Option ℚ) (rows : List StatRecord) :
    sumField f rows = (rows.map (fun r => numOr0 (f r))).sum := by
  unfold sumField
  rw [List.sum_eq_foldl, ← List.foldl_map]

/-! ## Claims -/

/-- C1: the claim states that the trend label agrees with the *rounded*
reported `change_percent` ("up" iff it exceeds 2). It does not: the
label is classified from the unrounded change percent. With current
2551 against previous 2500 the raw change is 2.04%, the label is "up",
yet the reported rounded change percent is exactly 2, which does not
exceed 2. -/
theorem C1_label_disagrees_with_rounded_percent :
    (classify c1rec [c1prev]).trend = "up" ∧
    (classify c1rec [c1prev]).change_percent = 2 ∧
    ¬ ((2 : ℚ) > 2) := by
  have hc : coalescePrice c1rec = 2551 := by norm_num [coalescePrice, jsOr, c1rec]
  have hp : coalescePrice c1prev = 2500 := by norm_num [coalescePrice, jsOr, c1prev]
  have hraw : rawChangePercent (coalescePrice c1rec) (coalescePrice c1prev) = 51 / 25 := by
    rw [hc, hp]; norm_num [rawChangePercent]
  rw [classify_pos c1rec c1prev [c1prev] (by decide) (by rw [hp]; norm_num), hraw]
  refine ⟨?_, ?_, by norm_num⟩
  · rw [if_pos (by norm_num : (51 : ℚ) / 25 > 2)]
  · show roundToTenth (51 / 25) = 2
    rw [roundToTenth, round_eq]
    norm_num

/-- C1 (amended): for a record whose nearest older same-series record
has positive coalesced previous price, the reported `change_percent` is
the raw change percent rounded to one decimal place, while the label is
classified from the *unrounded* value: "up" iff raw > 2, "down" iff
raw < -2, "stable" iff -2 ≤ raw ≤ 2. -/
theorem C1_amended_trend_classifier (price p : PriceRecord) (tail : List PriceRecord)
    (hfind : findPrevious price tail = some p) (hpos : 0 < coalescePrice p) :
    (classify price tail).change_percent =
      roundToTenth (rawChangePercent (coalescePrice price) (coalescePrice p)) ∧
    ((classify price tail).trend = "up" ↔
      2 < rawChangePercent (coalescePrice price) (coalescePrice p)) ∧
    ((classify price tail).trend = "down" ↔
      rawChangePercent (coalescePrice price) (coalescePrice p) < -2) ∧
    ((classify price tail).trend = "stable" ↔
      (-2 ≤ rawChangePercent (coalescePrice price) (coalescePrice p) ∧
        rawChangePercent (coalescePrice price) (coalescePrice p) ≤ 2)) := by
  rw [classify_pos price p tail hfind hpos]
  set x := rawChangePercent (coalescePrice price) (coalescePrice p) with hx
  refine ⟨rfl, ?_, ?_, ?_⟩
  all_goals (dsimp only; split_ifs with h1 h2 <;> simp_all <;> try linarith)

/-- Witness for the amended C1 at current 2551 against previous 2500. -/
theorem C1_amended_trend_classifier_witness :
    findPrevious c1rec [c1prev] = some c1prev ∧ 0 < coalescePrice c1prev ∧
    ((classify c1rec [c1prev]).trend = "up" ↔
      2 < rawChangePercent (coalescePrice c1rec) (coalescePrice c1prev)) :=
  ⟨by decide, by decide,
    (C1_amended_trend_classifier c1rec c1prev [c1prev] (by decide) (by decide)).2.1⟩

/-- C2: when the nearest older same-series record has coalesced price 0,
or when no older same-series record exists at all, the classifier
reports trend "stable" and change percent 0, regardless of the current
price. -/
theorem C2_zero_or_missing_previous_is_stable (price : PriceRecord) (tail : List PriceRecord)
    (h : findPrevious price tail = none ∨
      ∃ p, findPrevious price tail = some p ∧ coalescePrice p = 0) :
    (classify price tail).trend = "stable" ∧ (classify price tail).change_percent = 0 := by
  unfold classify
  rcases h with h | ⟨p, hp, hz⟩
  · rw [h]
    exact ⟨rfl, by simp [roundToTenth]⟩
  · rw [hp]
    simp only [hz]
    norm_num [roundToTenth]

/-- Witness for C2: a record whose previous same-series record has all
price fields absent (coalesced previous price 0) is classified
"stable"/0 despite a large current price; the single-record case is the
`none` branch of the same theorem. -/
theorem C2_zero_or_missing_previous_is_stable_witness :
    (findPrevious c2rec [c2prev] = none ∨
      ∃ p, findPrevious c2rec [c2prev] = some p ∧ coalescePrice p = 0) ∧
    (classify c2rec [c2prev]).trend = "stable" ∧
    (classify c2rec [c2prev]).change_percent = 0 :=
  ⟨Or.inr ⟨c2prev, by decide, by decide⟩,
    C2_zero_or_missing_previous_is_stable c2rec [c2prev]
      (Or.inr ⟨c2prev, by decide, by decide⟩)⟩

/-- C3: the claim states that the change amount uses the same coalesce
chain (modal, max, min, 0) as the change percent. It does not: the
change-amount chain is `modal || max || 0`, omitting the minimum price.
For a record whose only price is `min = 50` against previous 100, the
change percent is -50, the claim's formula gives round(50 · -50/100) =
-25, but the code reports change amount 0. -/
theorem C3_change_amount_ignores_min_price :
    (classify c3rec [c3prev]).change_amount = 0 ∧
    round (coalescePrice c3rec *
      (rawChangePercent (coalescePrice c3rec) (coalescePrice c3prev) / 100)) = -25 ∧
    (0 : ℤ) ≠ -25 := by
  have hc : coalescePrice c3rec = 50 := by norm_num [coalescePrice, jsOr, c3rec]
  have hp : coalescePrice c3prev = 100 := by norm_num [coalescePrice, jsOr, c3prev]
  have hraw : rawChangePercent (coalescePrice c3rec) (coalescePrice c3prev) = -50 := by
    rw [hc, hp]; norm_num [rawChangePercent]
  refine ⟨?_, ?_, by decide⟩
  · rw [classify_pos c3rec c3prev [c3prev] (by decide) (by rw [hp]; norm_num), hraw]
    norm_num [c3rec, jsOr]
  · rw [hraw, hc]
    norm_num [round_eq]

/-- C3 (amended): for a record with a positive coalesced previous price,
the change amount is `Math.round((modal || max || 0) · changePercent /
100)` with the *unrounded* change percent — the coalesce chain of the
change amount omits the minimum price. -/
theorem C3_amended_change_amount (price p : PriceRecord) (tail : List PriceRecord)
    (hfind : findPrevious price tail = some p) (hpos : 0 < coalescePrice p) :
    (classify price tail).change_amount =
      round (jsOr price.modal_price (jsOr price.max_price 0) *
        (rawChangePercent (coalescePrice price) (coalescePrice p) / 100)) := by
  rw [classify_pos price p tail hfind hpos]

/-- Witness for the amended C3 at the min-only record against previous
modal 100. -/
theorem C3_amended_change_amount_witness :
    findPrevious c3rec [c3prev] = some c3prev ∧ 0 < coalescePrice c3prev ∧
    (classify c3rec [c3prev]).change_amount =
      round (jsOr c3rec.modal_price (jsOr c3rec.max_price 0) *
        (rawChangePercent (coalescePrice c3rec) (coalescePrice c3prev) / 100)) :=
  ⟨by decide, by decide,
    C3_amended_change_amount c3rec c3prev [c3prev] (by decide) (by decide)⟩

/-- C4: over a non-empty result set, each reported average (yield,
rainfall, irrigation coverage) is the sum of the field over all
returned records — an absent field contributing 0 — divided by the
total record count, never by the count of present values; in
particular two records with yields 10 and absent average to 5. -/
theorem C4_averages_divide_by_total_count (rows : List StatRecord) (h : rows ≠ []) :
    (computeAggregates (some rows)).map Aggregates.avgYield =
      some ((rows.map (fun r => numOr0 r.yield_mt_per_ha)).sum / rows.length) ∧
    (computeAggregates (some rows)).map Aggregates.avgRainfall =
      some ((rows.map (fun r => numOr0 r.rainfall_mm)).sum / rows.length) ∧
    (computeAggregates (some rows)).map Aggregates.avgIrrigationCoverage =
      some ((rows.map (fun r => numOr0 r.irrigation_coverage_percent)).sum / rows.length) ∧
    (computeAggregates (some c4pair)).map Aggregates.avgYield = some 5 := by
  have hlen : 0 < rows.length := List.length_pos.mpr h
  refine ⟨?_, ?_, ?_, ?_⟩
  · simp [computeAggregates, hlen, sumField_eq_sum_map]
  · simp [computeAggregates, hlen, sumField_eq_sum_map]
  · simp [computeAggregates, hlen, sumField_eq_sum_map]
  · norm_num [computeAggregates, c4pair, sumField, numOr0]

/-- Witness for C4 on the two-record set with yields 10 and absent. -/
theorem C4_averages_divide_by_total_count_witness :
    c4pair ≠ [] ∧
    (computeAggregates (some c4pair)).map Aggregates.avgYield =
      some ((c4pair.map (fun r => numOr0 r.yield_mt_per_ha)).sum / c4pair.length) :=
  ⟨by decide, (C4_averages_divide_by_total_count c4pair (by decide)).1⟩

/-- C5: the claim states a query matching zero records yields *null*
aggregates. It does not: a successful query with zero matches returns
an empty (truthy) array, so the handler builds a zero-valued aggregates
object; the aggregates are null only when the data value itself is
null. Here a district filter `Nagpur` over a Pune-only table matches
zero records yet yields the all-zero aggregates object. -/
theorem C5_zero_match_yields_zero_object_not_null :
    (districtStatsHandler c5params c5table).stats = [] ∧
    (districtStatsHandler c5params c5table).aggregates = some ⟨0, 0, 0, 0, 0⟩ ∧
    (districtStatsHandler c5params c5table).aggregates ≠ none := by
  have hs : (districtStatsHandler c5params c5table).stats = [] := by decide
  have ha : (districtStatsHandler c5params c5table).aggregates =
      computeAggregates (some (districtStatsHandler c5params c5table).stats) := rfl
  refine ⟨hs, ?_, ?_⟩ <;> rw [ha, hs]
  · rfl
  · simp [computeAggregates]

/-- C5 (amended): when the query matches zero records the response
carries the zero-valued aggregates object (never an error and never
null — null aggregates arise only from a null data value), and
aggregation is total: it returns an aggregates object for every record
list, including empty and all-absent ones. -/
theorem C5_amended_zero_match_zero_aggregates (p : StatsParams) (table : List StatRecord)
    (h : (districtStatsHandler p table).stats = []) :
    (districtStatsHandler p table).aggregates = some ⟨0, 0, 0, 0, 0⟩ ∧
    (∀ rows : List StatRecord, computeAggregates (some rows) ≠ none) ∧
    computeAggregates none = none := by
  have ha : (districtStatsHandler p table).aggregates =
      computeAggregates (some (districtStatsHandler p table).stats) := rfl
  rw [ha, h]
  exact ⟨rfl, fun rows => by simp [computeAggregates], rfl⟩

/-- Witness for the amended C5: the Nagpur filter over the Pune-only
table matches zero records and yields the zero aggregates object. -/
theorem C5_amended_zero_match_zero_aggregates_witness :
    (districtStatsHandler c5params c5table).stats = [] ∧
    (districtStatsHandler c5params c5table).aggregates = some ⟨0, 0, 0, 0, 0⟩ :=
  ⟨by decide, (C5_amended_zero_match_zero_aggregates c5params c5table (by decide)).1⟩

/-- C6: the soil health score is the sum of a pH component (40 in
[6.0, 7.5], else 10), the minimum — not the average — of the three
nutrient components (20 in range, else 10 each), and an organic-matter
component (20/15/5); it is always within [25, 80], equals 80 at
(6.5, 300, 40, 200, 2.5) and 25 at (4.0, 50, 5, 50, 0.3), and one
out-of-range nutrient caps the whole score at 70. -/
theorem C6_soil_health_score (ph n p k om : ℚ) :
    (25 ≤ calculate_soil_health_score ph n p k om ∧
      calculate_soil_health_score ph n p k om ≤ 80) ∧
    calculate_soil_health_score (13 / 2) 300 40 200 (5 / 2) = 80 ∧
    calculate_soil_health_score 4 50 5 50 (3 / 10) = 25 ∧
    ((p < 20 ∨ 60 < p) → calculate_soil_health_score ph n p k om ≤ 70) := by
  refine ⟨?_, by norm_num [calculate_soil_health_score],
    by norm_num [calculate_soil_health_score], ?_⟩
  · unfold calculate_soil_health_score
    dsimp only
    split_ifs <;> norm_num [min_def]
  · intro hp
    unfold calculate_soil_health_score
    dsimp only
    have h10 : (if 20 ≤ p ∧ p ≤ 60 then (20 : ℚ) else 10) = 10 := by
      rw [if_neg]
      rintro ⟨h1, h2⟩
      rcases hp with h | h <;> linarith
    rw [h10]
    split_ifs <;> norm_num [min_def]

/-- Witness for C6: phosphorus 4 is out of range, so even with every
other reading optimal the score is at most 70. -/
theorem C6_soil_health_score_witness :
    ((4 : ℚ) < 20 ∨ (60 : ℚ) < 4) ∧
    calculate_soil_health_score (13 / 2) 300 4 200 3 ≤ 70 :=
  ⟨Or.inl (by norm_num),
    (C6_soil_health_score (13 / 2) 300 4 200 3).2.2.2 (Or.inl (by norm_num))⟩

/-- C7: the expected harvest date of a crop cycle is always exactly the
planting date plus 120 days — it is generated from the planting date on
insert and re-derived whenever the planting date changes, so it cannot
drift out of sync. -/
theorem C7_harvest_date_always_planting_plus_120 (crop : String) (d : ℤ)
    (row : CropCycleRow) (d2 : ℤ) :
    (insertCropCycle crop d).expected_harvest_date =
      (insertCropCycle crop d).planting_date + 120 ∧
    (insertCropCycle crop d).expected_harvest_date = d + 120 ∧
    (updatePlantingDate row d2).expected_harvest_date =
      (updatePlantingDate row d2).planting_date + 120 ∧
    (updatePlantingDate (insertCropCycle crop d) d2).expected_harvest_date = d2 + 120 :=
  ⟨rfl, rfl, rfl, rfl⟩

/-- C8: a profile request without a caller identity is rejected as
unauthorized before anything else runs: no repository call is issued
by either handler and the POST handler leaves the stored profiles
unchanged. -/
theorem C8_unauthenticated_rejected_before_any_work (db : List ProfileRow)
    (payload : ProfilePayload) :
    profileGET none db = (ProfileResp.unauthorized, []) ∧
    profilePOST none payload db = (ProfileResp.unauthorized, db, []) :=
  ⟨rfl, rfl⟩

/-- C9: when the alternate commodity identifier is absent on both
records, the series-key equality test succeeds (absent equals absent),
so the nearest older record of a *different* crop name is selected as
the previous record. -/
theorem C9_absent_commodity_matches_any_crop (a b : PriceRecord)
    (ha : a.commodity = none) (hb : b.commodity = none) :
    sameSeries b a = true ∧ findPrevious a [b] = some b := by
  have hs : sameSeries b a = true := by
    unfold sameSeries
    rw [ha, hb]
    simp
  exact ⟨hs, by unfold findPrevious; simp [List.find?, hs]⟩

/-- Witness for C9: a Wheat record takes a Rice record — a different
crop name — as its previous record because both commodity fields are
absent. -/
theorem C9_absent_commodity_matches_any_crop_witness :
    c9a.commodity = none ∧ c9b.commodity = none ∧ c9a.crop_name ≠ c9b.crop_name ∧
    (sameSeries c9b c9a = true ∧ findPrevious c9a [c9b] = some c9b) :=
  ⟨rfl, rfl, by decide, C9_absent_commodity_matches_any_crop c9a c9b rfl rfl⟩

/-- C10: a year parameter that does not parse as an integer is silently
ignored: no filter is applied and the handler's response is identical
to the response with no year parameter at all. -/
theorem C10_unparseable_year_silently_ignored (p : StatsParams) (table : List StatRecord)
    (y : String) (hy : jsParseInt y = none) :
    districtStatsHandler { p with year := some y } table =
      districtStatsHandler { p with year := none } table := by
  unfold districtStatsHandler
  by_cases h : y = "" <;> simp [jsTruthy, Option.bind, h, hy]

/-- Witness for C10: the year string "abcd" does not parse and the
response over a one-row Pune table is unchanged. -/
theorem C10_unparseable_year_silently_ignored_witness :
    jsParseInt "abcd" = none ∧
    districtStatsHandler { c10params with year := some "abcd" } c10table =
      districtStatsHandler { c10params with year := none } c10table :=
  ⟨by decide, C10_unparseable_year_silently_ignored c10params c10table "abcd" (by decide)⟩
